import Mathlib

/-!
Shallow embedding of the diet-tracking repository's core data model and
operations: the shared schema (`constants/schema.ts`), the in-memory store
(`lib/diet-store.ts`), meal persistence (`agents/save-meal-agent.ts`),
history queries (`agents/history-agent.ts`), the daily summary
(`agents/summary-agent.ts`), manual-draft normalization
(`features/record/use-record-screen.ts`), draft item removal
(`features/record/components/record-draft-confirm-modal.tsx`), and the
OpenAI gateway (`lib/openai.ts`).

Modelling conventions:
* JavaScript numbers are modelled by `JSNum`: either a finite rational or
  one of the non-finite values `NaN`, `Infinity`, `-Infinity`.  Values that
  the code guarantees finite (macro totals, goals, summary fields) are
  plain `Rat`.
* `Math.round` rounds half toward positive infinity, i.e. `⌊x + 1/2⌋`.
* Timestamps and date keys are strings; the environment-dependent
  conversion `getDateKeyFromIso` (local-timezone `YYYY-MM-DD` of an ISO
  instant, `lib/date.ts`) is passed as an explicit function parameter
  `dateKeyOf`, and `new Date().toISOString()` as a parameter `now`.
* `JSON.parse` inside the OpenAI gateway is passed as an explicit parser
  parameter, and fresh-id generation (`createId`) as id parameters.
* Backend (Supabase) calls are oracles: functions from the request payload
  to `Except` of an error message or a row, passed as parameters.
* Optional / possibly-`undefined` TypeScript values are `Option`;
  JavaScript `x ?? y` is `Option.getD`, and the truthiness test `x || y`
  on strings additionally treats the empty string as falsy.
-/

namespace Diet

/-- A JavaScript number: a finite rational, or NaN, or positive or negative
infinity. -/
inductive JSNum where
  | nan : JSNum
  | inf : JSNum
  | negInf : JSNum
  | num (q : Rat) : JSNum
deriving DecidableEq

/-- `Number.isFinite`. -/
def JSNum.isFinite : JSNum → Bool
  | .num _ => true
  | _ => false

/-- `Math.round` on a finite value: half-values round toward positive
infinity, so `Math.round x = ⌊x + 1/2⌋`. -/
def jsRound (q : Rat) : Int :=
  Int.floor (q + 1 / 2)

/-- `Math.round (q * 10) / 10`: round to one decimal place, as written in
`normalizeMacroValue` and `sanitizeNumber`. -/
def roundTo1 (q : Rat) : Rat :=
  (jsRound (q * 10) : Rat) / 10

/-- `constants/schema.ts` `FoodCategory`. -/
inductive FoodCategory where
  | dish : FoodCategory
  | ingredient : FoodCategory
  | unknown : FoodCategory
deriving DecidableEq

/-- `constants/schema.ts` `MealSource`. -/
inductive MealSource where
  | text : MealSource
  | image : MealSource
  | manual : MealSource
  | library : MealSource
deriving DecidableEq

/-- `constants/schema.ts` `Macro`: the four macro-nutrient totals.  Every
`Macro` produced by the code paths modelled here is finite, so the fields
are plain rationals. -/
structure Macro where
  kcal : Rat
  protein : Rat
  fat : Rat
  carbs : Rat
deriving DecidableEq

/-- `constants/schema.ts` `FoodItem`.  The numeric fields are raw
JavaScript numbers (they may be `NaN` or infinite before normalization). -/
structure FoodItem where
  id : String
  name : String
  category : FoodCategory
  amount : String
  kcal : JSNum
  protein : JSNum
  fat : JSNum
  carbs : JSNum
deriving DecidableEq

/-- `constants/schema.ts` `Meal`. -/
structure Meal where
  id : String
  recordedAt : String
  menuName : String
  originalText : String
  items : List FoodItem
  totals : Macro
  source : MealSource
  notes : Option String
deriving DecidableEq

/-- `constants/schema.ts` `FoodLibraryEntry`. -/
structure FoodLibraryEntry where
  id : String
  name : String
  amount : String
  calories : Rat
  protein : Rat
  fat : Rat
  carbs : Rat
  items : List FoodItem
  createdAt : String
deriving DecidableEq

/-- `constants/schema.ts` gender field of `Profile` / `ProfileSnapshot`. -/
inductive Gender where
  | male : Gender
  | female : Gender
  | other : Gender
deriving DecidableEq

/-- `constants/schema.ts` activity level of `Profile` / `ProfileSnapshot`. -/
inductive ActivityLevel where
  | low : ActivityLevel
  | moderate : ActivityLevel
  | high : ActivityLevel
deriving DecidableEq

/-- `constants/schema.ts` `ProfileSnapshot`. -/
structure ProfileSnapshot where
  gender : Gender
  age : Rat
  heightCm : Rat
  currentWeightKg : Rat
  targetWeightKg : Rat
  targetWeeks : Rat
  activityLevel : ActivityLevel
deriving DecidableEq

/-- `constants/schema.ts` `Profile`. -/
structure Profile where
  id : String
  gender : Gender
  birthDate : String
  heightCm : Rat
  currentWeightKg : Rat
  targetWeightKg : Rat
  targetDate : String
  activityLevel : ActivityLevel
  createdAt : String
  updatedAt : String
deriving DecidableEq

/-- `constants/schema.ts` source tag of a `Goal`. -/
inductive GoalSource where
  | manual : GoalSource
  | auto : GoalSource
deriving DecidableEq

/-- `constants/schema.ts` `Goal`. -/
structure Goal where
  id : String
  kcal : Rat
  protein : Rat
  fat : Rat
  carbs : Rat
  source : GoalSource
  calculatedFromProfile : Option ProfileSnapshot
  updatedAt : String
deriving DecidableEq

/-- `constants/schema.ts` `NotificationTime`. -/
inductive NotificationTime where
  | morning : NotificationTime
  | noon : NotificationTime
  | evening : NotificationTime
  | midnight : NotificationTime
deriving DecidableEq

/-- `constants/schema.ts` `NotificationSetting`. -/
structure NotificationSetting where
  enabled : Bool
  lastScheduledAt : Option String
  timezone : String
  pushToken : Option String
  times : List NotificationTime
deriving DecidableEq

/-- `constants/schema.ts` `AnalyzeDraft`. -/
structure AnalyzeDraft where
  draftId : String
  menuName : String
  originalText : String
  items : List FoodItem
  totals : Macro
  source : MealSource
  warnings : List String
deriving DecidableEq

/-- `constants/schema.ts` `normalizeMacroValue`: coerce a non-finite value
to 0, clamp to be non-negative, then round to one decimal place. -/
def normalizeMacroValue (value : JSNum) : Rat :=
  let safe : Rat := match value with
    | .num q => q
    | _ => 0
  let nonNegative := max 0 safe
  roundTo1 nonNegative

/-- `constants/schema.ts` `calculateMacroFromItems`: sum the normalized
macro values of a food-item list (a `reduce` from the zero `Macro`). -/
def calculateMacroFromItems (items : List FoodItem) : Macro :=
  items.foldl
    (fun acc item =>
      { kcal := acc.kcal + normalizeMacroValue item.kcal
        protein := acc.protein + normalizeMacroValue item.protein
        fat := acc.fat + normalizeMacroValue item.fat
        carbs := acc.carbs + normalizeMacroValue item.carbs })
    { kcal := 0, protein := 0, fat := 0, carbs := 0 }

/-- `lib/diet-store.ts` `DietState`: the single in-memory state object. -/
structure DietState where
  meals : List Meal
  foodLibrary : List FoodLibraryEntry
  goal : Goal
  profile : Option Profile
  notification : NotificationSetting
  draftInbox : List AnalyzeDraft
deriving DecidableEq

/-- `lib/diet-store.ts` `enqueueDraft`: append one draft to `draftInbox`
(the `setDietState` spread), leaving every other field unchanged. -/
def enqueueDraft (draft : AnalyzeDraft) (current : DietState) : DietState :=
  { current with draftInbox := current.draftInbox ++ [draft] }

/-- `lib/diet-store.ts` `consumeDraftInbox`: read the whole queue and clear
it in the same synchronous step, returning the drained drafts together with
the state after the call. -/
def consumeDraftInbox (state : DietState) : List AnalyzeDraft × DietState :=
  let drafts := state.draftInbox
  if drafts.length = 0 then
    ([], state)
  else
    (drafts, { state with draftInbox := [] })

/-- `lib/mappers.ts` `MealRow`: the backend row shape.  `foods`, `total`
and `source` may be absent (`?? …` defaults in `mapMealRow`). -/
structure MealRow where
  id : String
  user_id : String
  original_text : String
  foods : Option (List FoodItem)
  total : Option Macro
  timestamp : String
  menu_name : String
  source : Option MealSource
deriving DecidableEq

/-- `lib/mappers.ts` `mapMealRow`: convert a backend row to a `Meal`,
defaulting a missing item list to `[]`, missing totals to zero, and a
missing source to `manual`. -/
def mapMealRow (row : MealRow) : Meal :=
  { id := row.id
    recordedAt := row.timestamp
    menuName := row.menu_name
    originalText := row.original_text
    items := row.foods.getD []
    totals := row.total.getD { kcal := 0, protein := 0, fat := 0, carbs := 0 }
    source := row.source.getD .manual
    notes := none }

/-- The object spread `{ ...item }`: a field-by-field copy of a
`FoodItem` (used by `buildMealFromDraft`, `updateMeal` and `cloneMeal`). -/
def cloneFoodItem (item : FoodItem) : FoodItem :=
  { id := item.id
    name := item.name
    category := item.category
    amount := item.amount
    kcal := item.kcal
    protein := item.protein
    fat := item.fat
    carbs := item.carbs }

/-- `agents/save-meal-agent.ts` `SaveMealRequest.overrides`:
`Partial<Pick<Meal, 'menuName' | 'originalText' | 'items'>>`. -/
structure SaveOverrides where
  menuName : Option String
  originalText : Option String
  items : Option (List FoodItem)
deriving DecidableEq

/-- `agents/save-meal-agent.ts` `SaveMealRequest`. -/
structure SaveMealRequest where
  draft : AnalyzeDraft
  overrides : Option SaveOverrides
deriving DecidableEq

/-- JavaScript `String.prototype.trim`: drop leading and trailing
whitespace (modelled on the character list so that it evaluates
structurally). -/
def jsTrim (s : String) : String :=
  String.mk
    (((s.data.dropWhile Char.isWhitespace).reverse.dropWhile
      Char.isWhitespace).reverse)

/-- The string test `x.trim() || fallback`: the trimmed string, or the
fallback when trimming leaves it empty (the empty string is falsy). -/
def trimOr (x fallback : String) : String :=
  let t := jsTrim x
  if t = "" then fallback else t

/-- `agents/save-meal-agent.ts` `buildMealFromDraft`: apply the overrides
over the draft's own values, copy the chosen item list, trim the strings,
default a blank menu name to `名称未設定`, and recompute `totals` from the
copied items.  `now` stands for `new Date().toISOString()`. -/
def buildMealFromDraft (request : SaveMealRequest) (now : String) : Meal :=
  let mergedItems :=
    ((request.overrides.bind SaveOverrides.items).getD request.draft.items).map
      cloneFoodItem
  { id := "temp-" ++ request.draft.draftId
    recordedAt := now
    menuName :=
      trimOr ((request.overrides.bind SaveOverrides.menuName).getD
        request.draft.menuName) "名称未設定"
    originalText :=
      jsTrim ((request.overrides.bind SaveOverrides.originalText).getD
        request.draft.originalText)
    items := mergedItems
    totals := calculateMacroFromItems mergedItems
    source := request.draft.source
    notes := none }

/-- The insert payload `saveMeal` sends to `supabase.from('meals').insert`. -/
structure MealInsertPayload where
  user_id : String
  original_text : String
  foods : List FoodItem
  total : Macro
  timestamp : String
  menu_name : String
deriving DecidableEq

/-- The external effects `saveMeal` depends on: `requireUserId` (an
authenticated user id, or a thrown sign-in error) and the backend insert
(the stored row, or a thrown backend error). -/
structure SaveBackend where
  auth : Except String String
  insert : MealInsertPayload → Except String MealRow

/-- What one `saveMeal` call did: its return value or thrown error, the
in-memory state after its synchronous `setDietState` update, and whether a
persistence call was attempted. -/
structure SaveOutcome where
  result : Except String Meal
  state : DietState
  persistAttempted : Bool

/-- `agents/save-meal-agent.ts` `saveMeal`: build the candidate meal, throw
before any persistence when its item list is empty, then authenticate and
insert; on success append the mapped row to `state.meals` (the following
`invalidateSummary` notification and fire-and-forget `syncMealsByDate` do
not change the store synchronously and are outside this model). -/
def saveMeal (request : SaveMealRequest) (now : String) (backend : SaveBackend)
    (state : DietState) : SaveOutcome :=
  let meal := buildMealFromDraft request now
  if meal.items.length = 0 then
    { result := .error "食品カードを 1 件以上追加してください。"
      state := state
      persistAttempted := false }
  else
    match backend.auth with
    | .error e => { result := .error e, state := state, persistAttempted := false }
    | .ok userId =>
      match backend.insert
        { user_id := userId
          original_text := meal.originalText
          foods := meal.items
          total := meal.totals
          timestamp := meal.recordedAt
          menu_name := meal.menuName } with
      | .error e =>
        { result := .error e, state := state, persistAttempted := true }
      | .ok row =>
        let saved := mapMealRow row
        { result := .ok saved
          state := { state with meals := state.meals ++ [saved] }
          persistAttempted := true }

/-- `agents/history-agent.ts` `cloneMeal`: copy a meal, its items and its
totals. -/
def cloneMeal (meal : Meal) : Meal :=
  { meal with
    items := meal.items.map cloneFoodItem
    totals :=
      { kcal := meal.totals.kcal
        protein := meal.totals.protein
        fat := meal.totals.fat
        carbs := meal.totals.carbs } }

/-- `agents/history-agent.ts` `listMealsByDate`: the meals of the store
whose `recordedAt` converts to the given local date key (`dateKeyOf` stands
for `getDateKeyFromIso`), sorted ascending by `recordedAt` (the
`localeCompare` comparator, modelled as the ordinal string order), each
returned as a copy. -/
def listMealsByDate (dateKeyOf : String → String) (dateKey : String)
    (state : DietState) : List Meal :=
  (((state.meals.filter
      (fun meal => dateKeyOf meal.recordedAt == dateKey)).mergeSort
    (fun a b => decide (a.recordedAt ≤ b.recordedAt))).map cloneMeal)

/-- `agents/history-agent.ts` `Partial<EditableFields>`: the optional
update fields of `updateMeal`. -/
structure EditableFieldsUpdate where
  menuName : Option String
  originalText : Option String
  items : Option (List FoodItem)
deriving DecidableEq

/-- The update payload `updateMeal` sends to
`supabase.from('meals').update`. -/
structure MealUpdatePayload where
  menu_name : String
  original_text : String
  foods : List FoodItem
  total : Macro
deriving DecidableEq

/-- `agents/history-agent.ts` `updateMeal`, lines 179-186: the replaced
item list (`updates.items ? copy : current.items` — a present empty list
is truthy and replaces), the recomputed totals, and the payload.
`menu_name` is `updates.menuName?.trim() || current.menuName` and
`original_text` is `updates.originalText?.trim() ?? current.originalText`. -/
def updateMealPayload (current : Meal) (updates : EditableFieldsUpdate) :
    MealUpdatePayload :=
  let nextItems := match updates.items with
    | some its => its.map cloneFoodItem
    | none => current.items
  let totals := calculateMacroFromItems nextItems
  { menu_name := match updates.menuName with
      | some nm => trimOr nm current.menuName
      | none => current.menuName
    original_text := (updates.originalText.map jsTrim).getD
      current.originalText
    foods := nextItems
    total := totals }

/-- What one `updateMeal` call did: its result, the state after it, and
the payload it sent to the backend (none when it threw before sending). -/
structure UpdateOutcome where
  result : Except String Meal
  state : DietState
  sent : Option MealUpdatePayload

/-- `agents/history-agent.ts` `updateMeal`: find the meal, throw when it is
missing, build the payload (recomputing totals from the replaced items),
send it, and on success replace the stored meal by the mapped row. -/
def updateMeal (mealId : String) (updates : EditableFieldsUpdate)
    (backendUpdate : MealUpdatePayload → Except String MealRow)
    (state : DietState) : UpdateOutcome :=
  match state.meals.find? (fun meal => meal.id == mealId) with
  | none => { result := .error "Meal が見つかりません", state := state, sent := none }
  | some current =>
    let payload := updateMealPayload current updates
    match backendUpdate payload with
    | .error e => { result := .error e, state := state, sent := some payload }
    | .ok row =>
      let updated := mapMealRow row
      { result := .ok (cloneMeal updated)
        state := { state with
          meals := state.meals.map
            (fun meal => if meal.id == mealId then updated else meal) }
        sent := some payload }

/-- `agents/summary-agent.ts` `DailySummary`. -/
structure DailySummary where
  date : String
  totals : Macro
  goal : Macro
  diff : Macro
  ratio : Macro
  meals : List Meal
deriving DecidableEq

/-- `agents/summary-agent.ts` `diffMacro`: `totals - goal` per field. -/
def diffMacro (totals : Macro) (goal : Goal) : Macro :=
  { kcal := totals.kcal - goal.kcal
    protein := totals.protein - goal.protein
    fat := totals.fat - goal.fat
    carbs := totals.carbs - goal.carbs }

/-- `agents/summary-agent.ts` `divideSafe`: 0 when the denominator is
falsy (in the rational model, 0), else the quotient. -/
def divideSafe (numerator denominator : Rat) : Rat :=
  if denominator = 0 then 0 else numerator / denominator

/-- `agents/summary-agent.ts` `goalValueSafe`: 0 when the value is not
finite; every value of the rational model is finite, so this is the
identity. -/
def goalValueSafe (value : Rat) : Rat :=
  value

/-- `agents/summary-agent.ts` `ratioMacro`: per field,
`Math.min(2, goalValueSafe (divideSafe totals goal))` — an upper clamp at
2 only. -/
def ratioMacro (totals : Macro) (goal : Goal) : Macro :=
  let clampTwo := fun (value : Rat) => min 2 (goalValueSafe value)
  { kcal := clampTwo (divideSafe totals.kcal goal.kcal)
    protein := clampTwo (divideSafe totals.protein goal.protein)
    fat := clampTwo (divideSafe totals.fat goal.fat)
    carbs := clampTwo (divideSafe totals.carbs goal.carbs) }

/-- The `Macro`-typed view of a `Goal` (the summary's `goal: goal` field
assignment reads only the four macro fields). -/
def goalMacro (goal : Goal) : Macro :=
  { kcal := goal.kcal, protein := goal.protein, fat := goal.fat
    carbs := goal.carbs }

/-- `agents/summary-agent.ts` `getDailySummary`: filter the store's meals
to the date, sum their stored totals with a `reduce` from zero, and attach
the goal, the diff and the ratio. -/
def getDailySummary (dateKeyOf : String → String) (dateKey : String)
    (state : DietState) : DailySummary :=
  let mealsForDate := state.meals.filter
    (fun meal => dateKeyOf meal.recordedAt == dateKey)
  let totals := mealsForDate.foldl
    (fun acc meal =>
      { kcal := acc.kcal + meal.totals.kcal
        protein := acc.protein + meal.totals.protein
        fat := acc.fat + meal.totals.fat
        carbs := acc.carbs + meal.totals.carbs })
    { kcal := 0, protein := 0, fat := 0, carbs := 0 }
  { date := dateKey
    totals := totals
    goal := goalMacro state.goal
    diff := diffMacro totals state.goal
    ratio := ratioMacro totals state.goal
    meals := mealsForDate }

/-- `features/record/use-record-screen.ts` `createManualItem`: a blank
manual item (`freshId` stands for `createId('item')`). -/
def createManualItem (freshId : String) : FoodItem :=
  { id := freshId
    name := ""
    category := .unknown
    amount := "1人前"
    kcal := .num 0
    protein := .num 0
    fat := .num 0
    carbs := .num 0 }

/-- `features/record/use-record-screen.ts` `normalizeManualNumber`:
`Number.isFinite(value) ? value : 0` — non-finite becomes 0, every finite
value (negative or not, however many decimals) is kept as is. -/
def normalizeManualNumber (value : JSNum) : JSNum :=
  if value.isFinite then value else .num 0

/-- The per-item body of `normalizeManualItems`' `map` callback: trim the
name (`食品{index+1}` when blank), default a blank amount to `1人前`, and
pass each macro field through `normalizeManualNumber`. -/
def normalizeManualItem (index : Nat) (item : FoodItem) : FoodItem :=
  { item with
    name := trimOr item.name ("食品" ++ toString (index + 1))
    amount := trimOr item.amount "1人前"
    kcal := normalizeManualNumber item.kcal
    protein := normalizeManualNumber item.protein
    fat := normalizeManualNumber item.fat
    carbs := normalizeManualNumber item.carbs }

/-- `features/record/use-record-screen.ts` `normalizeManualItems`: an empty
list becomes one blank manual item, otherwise each item is normalized with
its index. -/
def normalizeManualItems (freshId : String) (items : List FoodItem) :
    List FoodItem :=
  if items.length = 0 then
    [createManualItem freshId]
  else
    items.mapIdx normalizeManualItem

/-- `features/record/use-record-screen.ts` `normalizeManualDraftForSave`:
normalize the items, derive the fallback menu name from the first
normalized item (`新しいメニュー` when there is none), use it when the
typed menu name trims to blank, and recompute the totals from the
normalized items. -/
def normalizeManualDraftForSave (freshId : String) (draft : AnalyzeDraft) :
    AnalyzeDraft :=
  let normalizedItems := normalizeManualItems freshId draft.items
  let fallbackName := (normalizedItems.head?.map FoodItem.name).getD
    "新しいメニュー"
  let menuName := trimOr draft.menuName fallbackName
  { draft with
    menuName := menuName
    originalText := menuName
    items := normalizedItems
    totals := calculateMacroFromItems normalizedItems }

/-- `record-draft-confirm-modal.tsx` `createEmptyItem`: the blank
placeholder reinserted when a removal would empty the list. -/
def createEmptyItem (freshId : String) : FoodItem :=
  { id := freshId
    name := ""
    category := .unknown
    amount := "1人前"
    kcal := .num 0
    protein := .num 0
    fat := .num 0
    carbs := .num 0 }

/-- `record-draft-confirm-modal.tsx` `handleRemoveItem`: filter out the
item at `index` (the `(_, idx) => idx !== index` callback, modelled by
filtering the enumerated list on the position); when nothing remains, hand
back a single blank placeholder instead. -/
def handleRemoveItem (freshId : String) (items : List FoodItem)
    (index : Nat) : List FoodItem :=
  let next := ((items.enum.filter (fun p => p.fst != index)).map Prod.snd)
  if next.length = 0 then
    [createEmptyItem freshId]
  else
    next

/-- `lib/openai.ts` raw item shape inside `RawResponse`:
`Array<Partial<FoodItem>>`.  The `category` string cast keeps only valid
categories in this model (no claim concerns an invalid category string). -/
structure RawFoodItem where
  name : Option String
  amount : Option String
  category : Option FoodCategory
  kcal : Option JSNum
  protein : Option JSNum
  fat : Option JSNum
  carbs : Option JSNum
deriving DecidableEq

/-- `lib/openai.ts` `RawResponse`: the JSON shape the assistant must
produce; every field may be missing. -/
structure RawResponse where
  menuName : Option String
  originalText : Option String
  warnings : Option (List String)
  items : Option (List RawFoodItem)
deriving DecidableEq

/-- `lib/openai.ts` `sanitizeNumber`: `Number(value)` (undefined becomes
NaN), 0 when not finite or negative, else rounded to one decimal place. -/
def sanitizeNumber (value : Option JSNum) : Rat :=
  let num : JSNum := match value with
    | some v => v
    | none => .nan
  match num with
  | .num q => if q < 0 then 0 else roundTo1 q
  | _ => 0

/-- `lib/openai.ts` `createPlaceholderItem`. -/
def createPlaceholderItem (freshId : String) : FoodItem :=
  { id := freshId
    name := "推定メニュー"
    category := .unknown
    amount := "1人前"
    kcal := .num 400
    protein := .num 20
    fat := .num 15
    carbs := .num 45 }

/-- The string test `x || fallback` on a possibly-missing string: missing
and empty are both falsy. -/
def strOr (x : Option String) (fallback : String) : String :=
  let s := x.getD ""
  if s = "" then fallback else s

/-- `lib/openai.ts` `normalizeItems`: an empty list becomes one
placeholder item; otherwise each raw item gets a fresh id, name and amount
fallbacks, a default category, and sanitized macro numbers.  `mkItemId i`
stands for the `createId('item')` call of item `i`. -/
def normalizeItems (mkItemId : Nat → String) (items : List RawFoodItem) :
    List FoodItem :=
  if items.length = 0 then
    [createPlaceholderItem (mkItemId 0)]
  else
    items.mapIdx (fun index item =>
      { id := mkItemId index
        name := strOr item.name ("食品" ++ toString (index + 1))
        category := item.category.getD .unknown
        amount := strOr item.amount "1人前"
        kcal := .num (sanitizeNumber item.kcal)
        protein := .num (sanitizeNumber item.protein)
        fat := .num (sanitizeNumber item.fat)
        carbs := .num (sanitizeNumber item.carbs) })

/-- `lib/openai.ts` `buildDraftFromContent`: parse the assistant's content
(`parse` stands for `parseResponse`, i.e. `JSON.parse` after trimming and
code-fence stripping); on parse failure return null, otherwise normalize
the items, apply the menu-name and original-text fallbacks, and recompute
the totals. -/
def buildDraftFromContent (parse : String → Option RawResponse)
    (mkItemId : Nat → String) (draftId : String)
    (fallbackText content : String) (source : MealSource) :
    Option AnalyzeDraft :=
  match parse content with
  | none => none
  | some parsed =>
    let items := normalizeItems mkItemId (parsed.items.getD [])
    some
      { draftId := draftId
        menuName := strOr parsed.menuName
          (if source = .image then "画像の食事" else "AIメニュー")
        originalText := strOr parsed.originalText fallbackText
        items := items
        totals := calculateMacroFromItems items
        source := source
        warnings := parsed.warnings.getD [] }

/-- The HTTP exchange `requestMealAnalysis` performs, seen from the
caller: `ok`/`status` of the response, the body text read on failure, and
the assistant content extracted by `extractMessageContent` (none when the
reply held no text content). -/
structure HttpResponse where
  ok : Bool
  status : Nat
  bodyText : String
  content : Option String

/-- `lib/openai.ts` `requestMealAnalysis`: null when no API key is
configured; a thrown error carrying the HTTP status and body text when the
response is not ok; null when no content could be extracted or the content
fails to parse; otherwise the built draft. -/
def requestMealAnalysis (apiKey : Option String)
    (parse : String → Option RawResponse) (mkItemId : Nat → String)
    (draftId : String) (prompt : String) (response : HttpResponse) :
    Except String (Option AnalyzeDraft) :=
  match apiKey with
  | none => .ok none
  | some _ =>
    if response.ok then
      match response.content with
      | none => .ok none
      | some content =>
        .ok (buildDraftFromContent parse mkItemId draftId prompt content .text)
    else
      .error ("OpenAI request failed: " ++ toString response.status ++ " "
        ++ response.bodyText)

/-- `lib/openai.ts` `requestMealImageAnalysis`: additionally null when no
base64 payload is supplied; the vision error message on a failed response;
the same parse path with the `画像解析結果` fallback text. -/
def requestMealImageAnalysis (apiKey : Option String)
    (parse : String → Option RawResponse) (mkItemId : Nat → String)
    (draftId : String) (base64 : Option String) (response : HttpResponse) :
    Except String (Option AnalyzeDraft) :=
  match apiKey with
  | none => .ok none
  | some _ =>
    match base64 with
    | none => .ok none
    | some _ =>
      if response.ok then
        match response.content with
        | none => .ok none
        | some content =>
          .ok (buildDraftFromContent parse mkItemId draftId "画像解析結果"
            content .image)
      else
        .error ("OpenAI vision request failed: " ++ toString response.status
          ++ " " ++ response.bodyText)

/-! ### Spec-side definitions (for refinement comparisons)

These two definitions follow the SPEC's words, not the source, and exist
only to be compared with the source-derived definitions above. -/

/-- Modelled from the spec: the claimed repository-wide numeric policy —
"the normalized value is `max(0, x)` rounded to 1 decimal;
`NaN`/`Infinity` inputs normalize to `0`". -/
def specNormalizedMacro (x : JSNum) : Rat :=
  match x with
  | .num q => roundTo1 (max 0 q)
  | _ => 0

/-- Modelled from the spec: the claimed summary ratio —
"`ratio = clamp(totals/goal, 0, 2)` per macro, with `goal=0` treated as
`ratio=0`". -/
def specClampRatio (totals goal : Rat) : Rat :=
  if goal = 0 then 0 else min 2 (max 0 (totals / goal))

/-! ### Helper lemmas -/

theorem roundTo1_zero : roundTo1 0 = 0 := by
  norm_num [roundTo1, jsRound]

theorem cloneFoodItem_eq (item : FoodItem) : cloneFoodItem item = item := rfl

theorem map_cloneFoodItem (l : List FoodItem) : l.map cloneFoodItem = l := by
  simp [show cloneFoodItem = id from funext fun _ => rfl]

theorem cloneMeal_eq (meal : Meal) : cloneMeal meal = meal := by
  simp [cloneMeal, map_cloneFoodItem]

/-! ### Concrete fixtures for witnesses and counterexamples -/

def testGoal : Goal :=
  { id := "goal-1", kcal := 1600, protein := 100, fat := 60, carbs := 220
    source := .manual, calculatedFromProfile := none
    updatedAt := "2024-01-01T00:00:00.000Z" }

def testNotification : NotificationSetting :=
  { enabled := false, lastScheduledAt := none, timezone := "Asia/Tokyo"
    pushToken := none, times := [.midnight] }

def emptyDietState : DietState :=
  { meals := [], foodLibrary := [], goal := testGoal, profile := none
    notification := testNotification, draftInbox := [] }

def testItem : FoodItem :=
  { id := "item-1", name := "ご飯", category := .dish, amount := "1人前"
    kcal := .num 300, protein := .num 20, fat := .num 10, carbs := .num 30 }

def testDraft : AnalyzeDraft :=
  { draftId := "draft-1", menuName := "ランチ", originalText := "ご飯"
    items := [testItem]
    totals := { kcal := 300, protein := 20, fat := 10, carbs := 30 }
    source := .manual, warnings := [] }

def testRow : MealRow :=
  { id := "meal-1", user_id := "user-1", original_text := "ご飯"
    foods := some [testItem]
    total := some { kcal := 300, protein := 20, fat := 10, carbs := 30 }
    timestamp := "2024-05-01T12:00:00.000Z", menu_name := "ランチ"
    source := some .manual }

/-! ### C7 — macro-value normalization agrees with the spec formula -/

/-- C7: for every numeric input `x`, both `normalizeMacroValue` (schema)
and `sanitizeNumber` (AI gateway) return `max(0, x)` rounded to one
decimal place (`round(x*10)/10`), and return 0 when `x` is NaN or
±Infinity. -/
theorem C7_macro_normalization (x : JSNum) :
    normalizeMacroValue x = specNormalizedMacro x ∧
    sanitizeNumber (some x) = specNormalizedMacro x := by
  cases x with
  | num q =>
    constructor
    · rfl
    · show sanitizeNumber (some (.num q)) = roundTo1 (max 0 q)
      by_cases h : q < 0
      · have hmax : max 0 q = 0 := max_eq_left h.le
        simp [sanitizeNumber, h, hmax, roundTo1_zero]
      · have hmax : max 0 q = q := max_eq_right (not_lt.mp h)
        simp [sanitizeNumber, h, hmax]
  | nan =>
    exact ⟨by show roundTo1 (max 0 0) = 0; rw [max_self, roundTo1_zero], rfl⟩
  | inf =>
    exact ⟨by show roundTo1 (max 0 0) = 0; rw [max_self, roundTo1_zero], rfl⟩
  | negInf =>
    exact ⟨by show roundTo1 (max 0 0) = 0; rw [max_self, roundTo1_zero], rfl⟩

/-! ### C8 — the draft inbox is a FIFO one-shot queue -/

theorem foldl_enqueueDraft (ds : List AnalyzeDraft) (s : DietState) :
    ds.foldl (fun st d => enqueueDraft d st) s
      = { s with draftInbox := s.draftInbox ++ ds } := by
  induction ds generalizing s with
  | nil => simp
  | cons d ds ih =>
    rw [List.foldl_cons, ih]
    simp [enqueueDraft, List.append_assoc]

/-- C8: starting from an empty inbox, after enqueueing `ds` one by one,
one `consumeDraftInbox` returns exactly `ds` in enqueue order and leaves
the inbox empty, and an immediately following `consumeDraftInbox` returns
`[]` (read and clear happen in the same synchronous step). -/
theorem C8_draft_inbox_fifo (state : DietState) (ds : List AnalyzeDraft)
    (h : state.draftInbox = []) :
    (consumeDraftInbox (ds.foldl (fun st d => enqueueDraft d st) state)).fst
        = ds ∧
    (consumeDraftInbox
        (ds.foldl (fun st d => enqueueDraft d st) state)).snd.draftInbox
        = [] ∧
    (consumeDraftInbox
        ((consumeDraftInbox
          (ds.foldl (fun st d => enqueueDraft d st) state)).snd)).fst
        = [] := by
  rw [foldl_enqueueDraft, h]
  simp only [List.nil_append]
  by_cases hds : ds.length = 0
  · have hnil : ds = [] := List.length_eq_zero.mp hds
    subst hnil
    simp [consumeDraftInbox]
  · simp [consumeDraftInbox, hds]

/-- C8 witness: the FIFO behaviour at a concrete state and draft. -/
theorem C8_draft_inbox_fifo_witness :
    (consumeDraftInbox
        ([testDraft].foldl (fun st d => enqueueDraft d st)
          emptyDietState)).fst = [testDraft] ∧
    (consumeDraftInbox
        ([testDraft].foldl (fun st d => enqueueDraft d st)
          emptyDietState)).snd.draftInbox = [] ∧
    (consumeDraftInbox
        ((consumeDraftInbox
          ([testDraft].foldl (fun st d => enqueueDraft d st)
            emptyDietState)).snd)).fst = [] :=
  C8_draft_inbox_fifo emptyDietState [testDraft] rfl

/-! ### C1 — totals are recomputed from the items at save and update time -/

/-- C1: the meal built by `saveMeal` persists the overridden item list
(`overrides.items` when provided, else the draft's items) and its totals
are `calculateMacroFromItems` of exactly that list, whatever the draft's
own `totals` field held; and every payload `updateMeal` sends carries
`total = calculateMacroFromItems` of the replaced item list it carries. -/
theorem C1_totals_recomputed_at_save (request : SaveMealRequest)
    (now : String) (mealId : String) (updates : EditableFieldsUpdate)
    (backendUpdate : MealUpdatePayload → Except String MealRow)
    (state : DietState) (payload : MealUpdatePayload)
    (hsent : (updateMeal mealId updates backendUpdate state).sent
      = some payload) :
    (buildMealFromDraft request now).items
        = (request.overrides.bind SaveOverrides.items).getD
          request.draft.items ∧
    (buildMealFromDraft request now).totals
        = calculateMacroFromItems
          ((request.overrides.bind SaveOverrides.items).getD
            request.draft.items) ∧
    payload.total = calculateMacroFromItems payload.foods := by
  refine ⟨by simp [buildMealFromDraft, map_cloneFoodItem],
    by simp [buildMealFromDraft, map_cloneFoodItem], ?_⟩
  cases hfind : state.meals.find? (fun meal => meal.id == mealId) with
  | none =>
    simp [updateMeal, hfind] at hsent
  | some current =>
    cases hb : backendUpdate (updateMealPayload current updates) with
    | error e =>
      simp [updateMeal, hfind, hb] at hsent
      subst hsent
      rfl
    | ok row =>
      simp [updateMeal, hfind, hb] at hsent
      subst hsent
      rfl

def testMeal : Meal := mapMealRow testRow

def oneMealState : DietState := { emptyDietState with meals := [testMeal] }

def noUpdates : EditableFieldsUpdate :=
  { menuName := none, originalText := none, items := none }

/-- C1 witness: the property at a concrete request and a concrete
`updateMeal` call whose sent payload is observed. -/
theorem C1_totals_recomputed_at_save_witness :
    (buildMealFromDraft { draft := testDraft, overrides := none }
        "2024-05-01T12:00:00.000Z").items = testDraft.items ∧
    (buildMealFromDraft { draft := testDraft, overrides := none }
        "2024-05-01T12:00:00.000Z").totals
      = calculateMacroFromItems testDraft.items ∧
    (updateMealPayload testMeal noUpdates).total
      = calculateMacroFromItems (updateMealPayload testMeal noUpdates).foods :=
  C1_totals_recomputed_at_save { draft := testDraft, overrides := none }
    "2024-05-01T12:00:00.000Z" "meal-1" noUpdates
    (fun _ => .error "ネットワークエラー") oneMealState
    (updateMealPayload testMeal noUpdates) rfl

/-! ### C2 — saveMeal rejects empty item lists before persisting, and a
throwing save leaves the store unchanged -/

/-- C2: when the item list obtained after applying the overrides is empty,
`saveMeal` throws its validation error without attempting persistence and
without touching the state; and whenever `saveMeal` throws (validation,
sign-in or backend failure), the in-memory state is unchanged. -/
theorem C2_save_rejects_empty (request : SaveMealRequest) (now : String)
    (backend : SaveBackend) (state : DietState) :
    ((request.overrides.bind SaveOverrides.items).getD request.draft.items
        = [] →
      (saveMeal request now backend state).result
          = .error "食品カードを 1 件以上追加してください。" ∧
      (saveMeal request now backend state).persistAttempted = false ∧
      (saveMeal request now backend state).state = state) ∧
    (∀ e, (saveMeal request now backend state).result = .error e →
      (saveMeal request now backend state).state = state) := by
  constructor
  · intro hempty
    have hlen : (buildMealFromDraft request now).items.length = 0 := by
      simp [buildMealFromDraft, map_cloneFoodItem, hempty]
    refine ⟨?_, ?_, ?_⟩ <;> simp [saveMeal, hlen]
  · intro e herr
    by_cases hlen : (buildMealFromDraft request now).items.length = 0
    · simp [saveMeal, hlen]
    · cases hauth : backend.auth with
      | error e2 => simp [saveMeal, hlen, hauth]
      | ok userId =>
        cases hins : backend.insert
            { user_id := userId
              original_text := (buildMealFromDraft request now).originalText
              foods := (buildMealFromDraft request now).items
              total := (buildMealFromDraft request now).totals
              timestamp := (buildMealFromDraft request now).recordedAt
              menu_name := (buildMealFromDraft request now).menuName } with
        | error e3 => simp [saveMeal, hlen, hauth, hins]
        | ok row => simp [saveMeal, hlen, hauth, hins] at herr

def emptyItemsDraft : AnalyzeDraft := { testDraft with items := [] }

def okBackend : SaveBackend :=
  { auth := .ok "user-1", insert := fun _ => .ok testRow }

/-- C2 witness: a concrete save of a draft whose item list is empty. -/
theorem C2_save_rejects_empty_witness :
    (saveMeal { draft := emptyItemsDraft, overrides := none }
        "2024-05-01T12:00:00.000Z" okBackend emptyDietState).result
      = .error "食品カードを 1 件以上追加してください。" ∧
    (saveMeal { draft := emptyItemsDraft, overrides := none }
        "2024-05-01T12:00:00.000Z" okBackend emptyDietState).persistAttempted
      = false ∧
    (saveMeal { draft := emptyItemsDraft, overrides := none }
        "2024-05-01T12:00:00.000Z" okBackend emptyDietState).state
      = emptyDietState :=
  (C2_save_rejects_empty { draft := emptyItemsDraft, overrides := none }
    "2024-05-01T12:00:00.000Z" okBackend emptyDietState).1 rfl

/-! ### C10 — a successful save appends exactly one meal and leaves every
other field of the state unchanged -/

/-- C10: on success, `saveMeal`'s synchronous store update appends the one
saved meal to the end of `meals`, and `foodLibrary`, `goal`, `profile`,
`notification`, `draftInbox` and all previously stored meals are
unchanged. -/
theorem C10_save_appends_exactly_one (request : SaveMealRequest)
    (now : String) (backend : SaveBackend) (state : DietState) (m : Meal)
    (h : (saveMeal request now backend state).result = .ok m) :
    (saveMeal request now backend state).state.meals = state.meals ++ [m] ∧
    (saveMeal request now backend state).state.foodLibrary
      = state.foodLibrary ∧
    (saveMeal request now backend state).state.goal = state.goal ∧
    (saveMeal request now backend state).state.profile = state.profile ∧
    (saveMeal request now backend state).state.notification
      = state.notification ∧
    (saveMeal request now backend state).state.draftInbox
      = state.draftInbox := by
  by_cases hlen : (buildMealFromDraft request now).items.length = 0
  · simp [saveMeal, hlen] at h
  · cases hauth : backend.auth with
    | error e2 => simp [saveMeal, hlen, hauth] at h
    | ok userId =>
      cases hins : backend.insert
          { user_id := userId
            original_text := (buildMealFromDraft request now).originalText
            foods := (buildMealFromDraft request now).items
            total := (buildMealFromDraft request now).totals
            timestamp := (buildMealFromDraft request now).recordedAt
            menu_name := (buildMealFromDraft request now).menuName } with
      | error e3 => simp [saveMeal, hlen, hauth, hins] at h
      | ok row =>
        simp only [saveMeal, hlen, hauth, hins] at h ⊢
        simp at h
        subst h
        simp [hlen, hins]

/-- C10 witness: a concrete successful save from an empty store. -/
theorem C10_save_appends_exactly_one_witness :
    (saveMeal { draft := testDraft, overrides := none }
        "2024-05-01T12:00:00.000Z" okBackend emptyDietState).state.meals
      = emptyDietState.meals ++ [mapMealRow testRow] ∧
    (saveMeal { draft := testDraft, overrides := none }
        "2024-05-01T12:00:00.000Z" okBackend emptyDietState).state.foodLibrary
      = emptyDietState.foodLibrary ∧
    (saveMeal { draft := testDraft, overrides := none }
        "2024-05-01T12:00:00.000Z" okBackend emptyDietState).state.goal
      = emptyDietState.goal ∧
    (saveMeal { draft := testDraft, overrides := none }
        "2024-05-01T12:00:00.000Z" okBackend emptyDietState).state.profile
      = emptyDietState.profile ∧
    (saveMeal { draft := testDraft, overrides := none }
        "2024-05-01T12:00:00.000Z" okBackend emptyDietState).state.notification
      = emptyDietState.notification ∧
    (saveMeal { draft := testDraft, overrides := none }
        "2024-05-01T12:00:00.000Z" okBackend emptyDietState).state.draftInbox
      = emptyDietState.draftInbox :=
  C10_save_appends_exactly_one { draft := testDraft, overrides := none }
    "2024-05-01T12:00:00.000Z" okBackend emptyDietState (mapMealRow testRow)
    rfl

/-! ### C5 — removing an item from a draft never empties the list -/

theorem filter_enumFrom_all {α : Type} (l : List α) :
    ∀ (m j : Nat), j < m →
      (List.enumFrom m l).filter (fun p => p.fst != j) = List.enumFrom m l := by
  induction l with
  | nil => intro m j h; rfl
  | cons a l ih =>
    intro m j h
    simp only [List.enumFrom_cons, List.filter_cons]
    have hne : (m != j) = true := by
      simp [Nat.ne_of_gt h]
    rw [hne]
    simp only [if_true]
    rw [ih (m + 1) j (h.trans (Nat.lt_succ_self m))]

/-- The JavaScript `filter((_, idx) => idx !== index)` removes exactly the
element at position `index` (and nothing when the index is out of range),
i.e. it is `eraseIdx`. -/
theorem enumFrom_filter_ne_map_snd {α : Type} :
    ∀ (l : List α) (n k : Nat),
      ((List.enumFrom n l).filter (fun p => p.fst != n + k)).map Prod.snd
        = l.eraseIdx k := by
  intro l
  induction l with
  | nil => intro n k; rfl
  | cons a l ih =>
    intro n k
    cases k with
    | zero =>
      simp only [List.enumFrom_cons, List.filter_cons, Nat.add_zero]
      have hself : (n != n) = false := by simp
      rw [hself]
      simp only [Bool.false_eq_true, if_false, List.eraseIdx_cons_zero]
      rw [filter_enumFrom_all l (n + 1) n (Nat.lt_succ_self n),
        List.enumFrom_map_snd]
    | succ k =>
      simp only [List.enumFrom_cons, List.filter_cons]
      have hne : (n != n + (k + 1)) = true := by
        simp
      rw [hne]
      simp only [if_true, List.map_cons, List.eraseIdx_cons_succ]
      have harith : n + (k + 1) = (n + 1) + k := by omega
      rw [harith, ih (n + 1) k]

/-- C5: removal never yields an empty list; with a valid index and more
than one item, the result is exactly the remaining `n-1` items; with a
valid index and exactly one item, the result is one fresh blank item. -/
theorem C5_removal_never_empties (freshId : String) (items : List FoodItem)
    (index : Nat) :
    handleRemoveItem freshId items index ≠ [] ∧
    (index < items.length → 1 < items.length →
      handleRemoveItem freshId items index = items.eraseIdx index ∧
      (handleRemoveItem freshId items index).length = items.length - 1) ∧
    (items.length = 1 → index < items.length →
      handleRemoveItem freshId items index = [createEmptyItem freshId]) := by
  have hnext : ((items.enum.filter (fun p => p.fst != index)).map Prod.snd)
      = items.eraseIdx index := by
    have h := enumFrom_filter_ne_map_snd items 0 index
    rw [Nat.zero_add] at h
    exact h
  refine ⟨?_, ?_, ?_⟩
  · by_cases h : (items.eraseIdx index).length = 0
    · simp [handleRemoveItem, hnext, h]
    · simp only [handleRemoveItem, hnext, h, if_false]
      intro hcontra
      exact h (by rw [hcontra]; rfl)
  · intro hidx hlen
    have h1 : (items.eraseIdx index).length = items.length - 1 :=
      List.length_eraseIdx_of_lt hidx
    have h0 : ¬((items.eraseIdx index).length = 0) := by omega
    simp only [handleRemoveItem, hnext, h0, if_false]
    exact ⟨by simp, h1⟩
  · intro hlen hidx
    have hzero : index = 0 := by omega
    obtain ⟨a, ha⟩ := List.length_eq_one.mp hlen
    subst ha hzero
    simp [handleRemoveItem, hnext]

def testItem2 : FoodItem :=
  { id := "item-2", name := "味噌汁", category := .dish, amount := "1杯"
    kcal := .num 60, protein := .num 4, fat := .num 2, carbs := .num 7 }

/-- C5 witness: removal at a concrete two-item list and at a concrete
single-item list. -/
theorem C5_removal_never_empties_witness :
    handleRemoveItem "fresh-1" [testItem] 0 ≠ [] ∧
    handleRemoveItem "fresh-2" [testItem, testItem2] 0
      = [testItem, testItem2].eraseIdx 0 ∧
    handleRemoveItem "fresh-1" [testItem] 0 = [createEmptyItem "fresh-1"] :=
  ⟨(C5_removal_never_empties "fresh-1" [testItem] 0).1,
    ((C5_removal_never_empties "fresh-2" [testItem, testItem2] 0).2.1
      (by decide) (by decide)).1,
    (C5_removal_never_empties "fresh-1" [testItem] 0).2.2 rfl (by decide)⟩

/-! ### C3 — daily summary: totals and diff as claimed, but the ratio has
no lower clamp at 0 -/

theorem sumMacro_foldl (meals : List Meal) (acc : Macro) :
    (meals.foldl
      (fun acc meal =>
        { kcal := acc.kcal + meal.totals.kcal
          protein := acc.protein + meal.totals.protein
          fat := acc.fat + meal.totals.fat
          carbs := acc.carbs + meal.totals.carbs }) acc)
      = { kcal := acc.kcal + (meals.map (fun m => m.totals.kcal)).sum
          protein :=
            acc.protein + (meals.map (fun m => m.totals.protein)).sum
          fat := acc.fat + (meals.map (fun m => m.totals.fat)).sum
          carbs := acc.carbs + (meals.map (fun m => m.totals.carbs)).sum } := by
  induction meals generalizing acc with
  | nil => simp
  | cons m ms ih => simp [List.foldl_cons, ih, add_assoc]

def negativeGoal : Goal := { testGoal with kcal := -100 }

def c3Meal : Meal :=
  { id := "meal-neg", recordedAt := "2024-05-01T12:00:00.000Z"
    menuName := "テスト", originalText := "", items := []
    totals := { kcal := 200, protein := 0, fat := 0, carbs := 0 }
    source := .manual, notes := none }

def c3State : DietState :=
  { emptyDietState with goal := negativeGoal, meals := [c3Meal] }

/-- C3 counterexample: with a stored goal of `kcal = -100` and one meal
totalling `kcal = 200` on the date, the code's ratio is `-2`, while the
claimed `clamp(totals/goal, 0, 2)` is `0` — so the ratio is not the
claimed clamp. -/
theorem C3_ratio_clamp_counterexample :
    (getDailySummary (fun _ => "2024-05-01") "2024-05-01"
        c3State).ratio.kcal = -2 ∧
    specClampRatio
        (getDailySummary (fun _ => "2024-05-01") "2024-05-01"
          c3State).totals.kcal c3State.goal.kcal = 0 ∧
    (-2 : Rat) ≠ 0 := by
  have hstate : c3State.meals = [c3Meal] := rfl
  refine ⟨?_, ?_, by norm_num⟩
  · simp only [getDailySummary, hstate]
    simp [c3Meal, c3State, negativeGoal, testGoal, emptyDietState,
      ratioMacro, divideSafe, goalValueSafe]
    norm_num [min_def]
  · simp only [getDailySummary, hstate]
    simp [c3Meal, c3State, negativeGoal, testGoal, emptyDietState,
      specClampRatio]
    norm_num [min_def, max_def]

/-- C3 amended: `getDailySummary` returns totals equal to the field-wise
sum of the totals of the meals whose `recordedAt` falls on the date, and
`diff = totals - goal` per field; the ratio, however, is
`min(totals/goal, 2)` with a goal field of 0 yielding 0 — an upper clamp
only (it coincides with the claimed `clamp(totals/goal, 0, 2)` whenever
the totals and goal fields are non-negative). -/
theorem C3_daily_summary_amended (dateKeyOf : String → String)
    (dateKey : String) (s : DietState) :
    (getDailySummary dateKeyOf dateKey s).meals
        = s.meals.filter (fun meal => dateKeyOf meal.recordedAt == dateKey) ∧
    (getDailySummary dateKeyOf dateKey s).totals
        = { kcal := (((s.meals.filter
                (fun meal => dateKeyOf meal.recordedAt == dateKey)).map
              (fun m => m.totals.kcal)).sum : Rat)
            protein := ((s.meals.filter
                (fun meal => dateKeyOf meal.recordedAt == dateKey)).map
              (fun m => m.totals.protein)).sum
            fat := ((s.meals.filter
                (fun meal => dateKeyOf meal.recordedAt == dateKey)).map
              (fun m => m.totals.fat)).sum
            carbs := ((s.meals.filter
                (fun meal => dateKeyOf meal.recordedAt == dateKey)).map
              (fun m => m.totals.carbs)).sum } ∧
    (getDailySummary dateKeyOf dateKey s).diff
        = { kcal := (getDailySummary dateKeyOf dateKey s).totals.kcal
              - s.goal.kcal
            protein := (getDailySummary dateKeyOf dateKey s).totals.protein
              - s.goal.protein
            fat := (getDailySummary dateKeyOf dateKey s).totals.fat
              - s.goal.fat
            carbs := (getDailySummary dateKeyOf dateKey s).totals.carbs
              - s.goal.carbs } ∧
    (getDailySummary dateKeyOf dateKey s).ratio
        = { kcal := if s.goal.kcal = 0 then 0
              else min 2
                ((getDailySummary dateKeyOf dateKey s).totals.kcal
                  / s.goal.kcal)
            protein := if s.goal.protein = 0 then 0
              else min 2
                ((getDailySummary dateKeyOf dateKey s).totals.protein
                  / s.goal.protein)
            fat := if s.goal.fat = 0 then 0
              else min 2
                ((getDailySummary dateKeyOf dateKey s).totals.fat
                  / s.goal.fat)
            carbs := if s.goal.carbs = 0 then 0
              else min 2
                ((getDailySummary dateKeyOf dateKey s).totals.carbs
                  / s.goal.carbs) } := by
  refine ⟨rfl, ?_, ?_, ?_⟩
  · simp only [getDailySummary, sumMacro_foldl]
    simp
  · simp only [getDailySummary, diffMacro]
  · simp only [getDailySummary, ratioMacro, divideSafe, goalValueSafe]
    congr 1 <;> split <;> simp

/-! ### C4 — manual-draft confirm-time normalization: names, amounts and
non-finite coercion as claimed, but finite macro values are NOT clamped or
rounded here -/

def c4Item : FoodItem :=
  { id := "item-neg", name := "コーラ", category := .unknown, amount := "1本"
    kcal := .num (-1), protein := .num 0, fat := .num 0, carbs := .num 0 }

def c4Draft : AnalyzeDraft :=
  { draftId := "draft-c4", menuName := "手動メニュー"
    originalText := "手動メニュー", items := [c4Item]
    totals := { kcal := 0, protein := 0, fat := 0, carbs := 0 }
    source := .manual, warnings := [] }

/-- C4 counterexample: confirm-time normalization of a manual draft keeps
a finite negative macro value unchanged (`kcal = -1` stays `-1`), whereas
the claimed repository-wide policy value for `-1` is `0` — so the
produced items are not "non-negative and rounded to one decimal place". -/
theorem C4_manual_normalization_counterexample :
    (normalizeManualDraftForSave "fresh-c4" c4Draft).items.map
        (fun it => it.kcal) = [JSNum.num (-1)] ∧
    specNormalizedMacro (.num (-1)) = 0 ∧
    ((-1 : Rat) < 0) := by
  refine ⟨rfl, ?_, by norm_num⟩
  have hmax : max (0 : Rat) (-1) = 0 := by norm_num
  simp [specNormalizedMacro, hmax, roundTo1_zero]

/-- C4 amended: for a manual draft with at least one item, confirm-time
normalization maps each item to a copy whose name is trimmed with blank
names replaced by `食品{n}` (`n` = index + 1), whose blank amount defaults
to `1人前`, and whose macro fields have non-finite values coerced to 0 but
finite values kept exactly as they are (clamping to non-negative and
one-decimal rounding happen only when totals are summed); a blank
(after trim) menu name is replaced by the first normalized item's name,
`originalText` is set to the menu name, and the totals are recomputed from
the normalized items with `calculateMacroFromItems`. -/
theorem C4_manual_normalization_amended (freshId : String)
    (draft : AnalyzeDraft) (h : draft.items ≠ []) :
    (normalizeManualDraftForSave freshId draft).items
        = draft.items.mapIdx normalizeManualItem ∧
    (∀ (index : Nat) (item : FoodItem), normalizeManualItem index item
        = { item with
            name := trimOr item.name ("食品" ++ toString (index + 1))
            amount := trimOr item.amount "1人前"
            kcal := if item.kcal.isFinite then item.kcal else .num 0
            protein := if item.protein.isFinite then item.protein else .num 0
            fat := if item.fat.isFinite then item.fat else .num 0
            carbs := if item.carbs.isFinite then item.carbs else .num 0 }) ∧
    (normalizeManualDraftForSave freshId draft).menuName
        = trimOr draft.menuName
          (((draft.items.mapIdx normalizeManualItem).head?.map
            FoodItem.name).getD "新しいメニュー") ∧
    (normalizeManualDraftForSave freshId draft).originalText
        = (normalizeManualDraftForSave freshId draft).menuName ∧
    (normalizeManualDraftForSave freshId draft).totals
        = calculateMacroFromItems
          (normalizeManualDraftForSave freshId draft).items := by
  have hlen : ¬(draft.items.length = 0) := by
    simpa [List.length_eq_zero] using h
  refine ⟨?_, ?_, ?_, rfl, rfl⟩
  · simp [normalizeManualDraftForSave, normalizeManualItems, hlen]
  · intro index item
    rfl
  · simp [normalizeManualDraftForSave, normalizeManualItems, hlen]

/-- C4 witness: the amended normalization at a concrete one-item manual
draft. -/
theorem C4_manual_normalization_amended_witness :
    (normalizeManualDraftForSave "w4" testDraft).items
        = testDraft.items.mapIdx normalizeManualItem ∧
    (∀ (index : Nat) (item : FoodItem), normalizeManualItem index item
        = { item with
            name := trimOr item.name ("食品" ++ toString (index + 1))
            amount := trimOr item.amount "1人前"
            kcal := if item.kcal.isFinite then item.kcal else .num 0
            protein := if item.protein.isFinite then item.protein else .num 0
            fat := if item.fat.isFinite then item.fat else .num 0
            carbs := if item.carbs.isFinite then item.carbs else .num 0 }) ∧
    (normalizeManualDraftForSave "w4" testDraft).menuName
        = trimOr testDraft.menuName
          (((testDraft.items.mapIdx normalizeManualItem).head?.map
            FoodItem.name).getD "新しいメニュー") ∧
    (normalizeManualDraftForSave "w4" testDraft).originalText
        = (normalizeManualDraftForSave "w4" testDraft).menuName ∧
    (normalizeManualDraftForSave "w4" testDraft).totals
        = calculateMacroFromItems
          (normalizeManualDraftForSave "w4" testDraft).items :=
  C4_manual_normalization_amended "w4" testDraft (by decide)

/-! ### C6 — date-scoped listing: exactly the meals of the local date,
sorted ascending by recordedAt -/

/-- C6: `listMealsByDate` returns a permutation of exactly the stored
meals whose `recordedAt` converts to the requested local date key, the
result is sorted ascending by `recordedAt`, and membership is precisely
"stored and on that date". -/
theorem C6_list_meals_by_date (dateKeyOf : String → String)
    (dateKey : String) (s : DietState) :
    (listMealsByDate dateKeyOf dateKey s).Perm
        (s.meals.filter (fun meal => dateKeyOf meal.recordedAt == dateKey)) ∧
    List.Pairwise (fun a b : Meal => a.recordedAt ≤ b.recordedAt)
        (listMealsByDate dateKeyOf dateKey s) ∧
    ∀ m : Meal, m ∈ listMealsByDate dateKeyOf dateKey s ↔
      (m ∈ s.meals ∧ dateKeyOf m.recordedAt = dateKey) := by
  have hmap : listMealsByDate dateKeyOf dateKey s
      = ((s.meals.filter
          (fun meal => dateKeyOf meal.recordedAt == dateKey)).mergeSort
        (fun a b => decide (a.recordedAt ≤ b.recordedAt))) := by
    simp [listMealsByDate, show cloneMeal = id from funext cloneMeal_eq]
  have hperm :=
    List.mergeSort_perm
      (s.meals.filter (fun meal => dateKeyOf meal.recordedAt == dateKey))
      (fun a b => decide (a.recordedAt ≤ b.recordedAt))
  have htrans : ∀ (a b c : Meal),
      decide (a.recordedAt ≤ b.recordedAt) = true →
      decide (b.recordedAt ≤ c.recordedAt) = true →
      decide (a.recordedAt ≤ c.recordedAt) = true := by
    intro a b c hab hbc
    simp only [decide_eq_true_eq] at hab hbc ⊢
    exact le_trans hab hbc
  have htotal : ∀ (a b : Meal),
      (decide (a.recordedAt ≤ b.recordedAt)
        || decide (b.recordedAt ≤ a.recordedAt)) = true := by
    intro a b
    simpa [Bool.or_eq_true, decide_eq_true_eq] using
      le_total a.recordedAt b.recordedAt
  refine ⟨?_, ?_, ?_⟩
  · rw [hmap]
    exact hperm
  · rw [hmap]
    have hsorted :=
      @List.sorted_mergeSort Meal
        (fun a b => decide (a.recordedAt ≤ b.recordedAt)) htrans htotal
        (s.meals.filter (fun meal => dateKeyOf meal.recordedAt == dateKey))
    exact hsorted.imp (fun h => of_decide_eq_true h)
  · intro m
    rw [hmap]
    constructor
    · intro hm
      have hmem := hperm.mem_iff.mp hm
      rw [List.mem_filter] at hmem
      exact ⟨hmem.1, by simpa using hmem.2⟩
    · intro hm
      apply hperm.mem_iff.mpr
      rw [List.mem_filter]
      exact ⟨hm.1, by simpa using hm.2⟩

/-! ### C9 — analyze gateway: null without key, throw with status and body
on HTTP failure, null (not a throw) on parse failure -/

/-- C9: the gateway returns null when no API key is configured; throws an
error carrying the HTTP status and response body text when the response is
non-2xx; and returns null without throwing when JSON parsing of the
assistant's content fails. -/
theorem C9_gateway_error_contract (apiKey : Option String)
    (parse : String → Option RawResponse) (mkItemId : Nat → String)
    (draftId : String) (prompt : String) (base64 : Option String)
    (response : HttpResponse) :
    (apiKey = none →
      requestMealAnalysis apiKey parse mkItemId draftId prompt response
          = .ok none ∧
      requestMealImageAnalysis apiKey parse mkItemId draftId base64 response
          = .ok none) ∧
    (∀ k, apiKey = some k → response.ok = false →
      requestMealAnalysis apiKey parse mkItemId draftId prompt response
          = .error ("OpenAI request failed: " ++ toString response.status
            ++ " " ++ response.bodyText) ∧
      (∀ b64, base64 = some b64 →
        requestMealImageAnalysis apiKey parse mkItemId draftId base64
            response
          = .error ("OpenAI vision request failed: "
            ++ toString response.status ++ " " ++ response.bodyText))) ∧
    (∀ k content, apiKey = some k → response.ok = true →
      response.content = some content → parse content = none →
      requestMealAnalysis apiKey parse mkItemId draftId prompt response
          = .ok none ∧
      (∀ b64, base64 = some b64 →
        requestMealImageAnalysis apiKey parse mkItemId draftId base64
            response = .ok none)) := by
  refine ⟨?_, ?_, ?_⟩
  · intro hk
    subst hk
    exact ⟨rfl, rfl⟩
  · intro k hk hok
    subst hk
    constructor
    · simp [requestMealAnalysis, hok]
    · intro b64 hb
      subst hb
      simp [requestMealImageAnalysis, hok]
  · intro k content hk hok hcontent hparse
    subst hk
    constructor
    · simp [requestMealAnalysis, hok, hcontent, buildDraftFromContent,
        hparse]
    · intro b64 hb
      subst hb
      simp [requestMealImageAnalysis, hok, hcontent, buildDraftFromContent,
        hparse]

def failResponse : HttpResponse :=
  { ok := false, status := 500, bodyText := "Internal Error"
    content := none }

def badJsonResponse : HttpResponse :=
  { ok := true, status := 200, bodyText := ""
    content := some "not json" }

def noParse : String → Option RawResponse := fun _ => none

/-- C9 witness: the three behaviours at concrete responses — no key, a
500 failure, and an unparsable assistant content. -/
theorem C9_gateway_error_contract_witness :
    requestMealAnalysis none noParse (fun _ => "id-1") "d1" "焼き魚定食"
        failResponse = .ok none ∧
    requestMealAnalysis (some "sk-test") noParse (fun _ => "id-1") "d1"
        "焼き魚定食" failResponse
      = .error ("OpenAI request failed: " ++ toString (500 : Nat) ++ " "
        ++ "Internal Error") ∧
    requestMealAnalysis (some "sk-test") noParse (fun _ => "id-1") "d1"
        "焼き魚定食" badJsonResponse = .ok none :=
  ⟨((C9_gateway_error_contract none noParse (fun _ => "id-1") "d1"
      "焼き魚定食" none failResponse).1 rfl).1,
    ((C9_gateway_error_contract (some "sk-test") noParse (fun _ => "id-1")
      "d1" "焼き魚定食" none failResponse).2.1 "sk-test" rfl rfl).1,
    ((C9_gateway_error_contract (some "sk-test") noParse (fun _ => "id-1")
      "d1" "焼き魚定食" none badJsonResponse).2.2 "sk-test" "not json" rfl
      rfl rfl rfl).1⟩

end Diet
